import Mathlib

/-!
Verification of the admin-bootstrap token lifecycle and the role-based access
gate of the `synergycare` backend (`app/routes/admin_setup.py`,
`app/middleware/auth.py`, `app/services/firebase_service.py`), shallowly
embedded in Lean.

Timestamps are `Nat` seconds (`int(time.time())`).  The in-memory token map
`_admin_tokens` is embedded as an association list keyed by the token digest;
Python `dict` semantics guarantee distinct keys, which appears below as a
`keysNodup` hypothesis where it matters.  External collaborators (the Firebase
SDK) are embedded as explicit parameters: token verification is a function
`String → Except String Claims`, and the outcome of
`FirebaseService.create_user_with_role` is an `Option String` (the created
uid, or `none` on failure) passed into the consume path.
-/

namespace SynergyCare

/-- A stored admin bootstrap token record — the value of
`_admin_tokens[token_hash]` in `app/routes/admin_setup.py`: `created_at`,
`expires_at`, the `used` flag, and the `used_at` / `admin_uid` fields written
at consumption (lines 52-56 and 158-160). -/
structure TokenRecord where
  created_at : Nat
  expires_at : Nat
  used : Bool
  used_at : Option Nat := none
  admin_uid : Option String := none
deriving DecidableEq, Repr

/-- The in-memory token store `_admin_tokens`: token-digest-keyed records. -/
abbrev TokenStore := List (String × TokenRecord)

/-- `_admin_tokens.get(token_hash)`. -/
def lookupToken (s : TokenStore) (h : String) : Option TokenRecord :=
  (s.find? (fun p => p.1 == h)).map Prod.snd

/-- `_admin_tokens[token_hash] = record` (Python dict insertion/replacement). -/
def insertToken (s : TokenStore) (h : String) (r : TokenRecord) : TokenStore :=
  (h, r) :: s.filter (fun p => !(p.1 == h))

/-- In-place mutation of the record stored under key `h`
(`token_data['used'] = True` etc. mutates the dict's value object). -/
def updateToken (s : TokenStore) (h : String) (r : TokenRecord) : TokenStore :=
  s.map (fun p => if p.1 == h then (h, r) else p)

/-- `_cleanup_expired_tokens` (lines 244-256): delete every record with
`expires_at < current_time`. -/
def sweepStore (now : Nat) (s : TokenStore) : TokenStore :=
  s.filter (fun p => !(decide (p.2.expires_at < now)))

/-- Python dicts have distinct keys; every store reachable from the empty dict
satisfies this. -/
def keysNodup (s : TokenStore) : Prop :=
  (s.map Prod.fst).Nodup

instance (s : TokenStore) : Decidable (keysNodup s) := by
  unfold keysNodup; infer_instance

/-- Outcome of the token-classification sequence shared by
`validate_admin_token` (lines 94-101) and `register_admin_with_token`
(lines 137-144): not found, then used, then expired, else valid. -/
inductive PeekResult where
  | Valid (expires_at : Nat)
  | NotFound
  | AlreadyUsed
  | Expired
deriving DecidableEq, Repr

/-- Lines 94-101 / 137-144: `if not token_data` → not found; `if
token_data['used']` → already used; `if token_data['expires_at'] <
int(time.time())` → expired; otherwise valid. -/
def classifyToken (td : Option TokenRecord) (now : Nat) : PeekResult :=
  match td with
  | none => .NotFound
  | some d =>
      if d.used then .AlreadyUsed
      else if d.expires_at < now then .Expired
      else .Valid d.expires_at

/-- The store-level `peek` of the spec: classify the record under the digest
`h` without mutating anything. -/
def peek (s : TokenStore) (h : String) (now : Nat) : PeekResult :=
  classifyToken (lookupToken s h) now

/-- Outcome of the consume path of `register_admin_with_token`. -/
inductive ConsumeResult where
  | Provisioned (uid : String)
  | NotFound
  | AlreadyUsed
  | Expired
  | ProvisionFailed
deriving DecidableEq, Repr

/-- The consume path of `register_admin_with_token` (lines 134-160): classify
the record exactly as `peek`; when valid, call
`FirebaseService.create_user_with_role` (its outcome is the `provision`
argument: `some uid` on success, `none` on failure, line 154); only after a
successful creation mark the record used (lines 157-160).  Returns the
outcome together with the store left behind. -/
def consume (s : TokenStore) (h : String) (now : Nat) (provision : Option String) :
    ConsumeResult × TokenStore :=
  match lookupToken s h with
  | none => (.NotFound, s)
  | some d =>
      if d.used then (.AlreadyUsed, s)
      else if d.expires_at < now then (.Expired, s)
      else
        match provision with
        | none => (.ProvisionFailed, s)
        | some uid =>
            (.Provisioned uid,
             updateToken s h
               { d with used := true, used_at := some now, admin_uid := some uid })

/-- Result of a route handler, recording the arguments the handler passes to
`success_response(payload, message)` or `error_response(msg, status)`. -/
inductive RouteResult (α : Type) where
  | ok (payload : α) (message : String)
  | err (msg : String) (status : Nat)
deriving DecidableEq

/-- Python truthiness of an optional string (`if not token`): `None` and the
empty string are falsy. -/
def truthy : Option String → Bool
  | none => false
  | some s => !(s == "")

/-- `FirebaseService.VALID_ROLES`. -/
def VALID_ROLES : List String := ["admin", "patient", "doctor"]

/-- One user as seen through the Firebase listing (`auth.list_users()` pages);
`custom_role` is `custom_claims.get('role')`. -/
structure ProviderUser where
  uid : String
  email : Option String
  display_name : Option String
  email_verified : Bool
  creation_timestamp : Nat
  custom_role : Option String
deriving DecidableEq, Repr

/-- The dict built for each matching user in
`FirebaseService.list_users_by_role` (lines 206-213). -/
structure UserSummary where
  uid : String
  email : Option String
  display_name : Option String
  role : String
  email_verified : Bool
  created_at : Nat
deriving DecidableEq, Repr

/-- `FirebaseService.list_users_by_role` (lines 189-221).  The provider call
`auth.list_users()` (paged) is embedded as `listing`: `.ok users` when the
provider responds, `.error e` when it raises.  An invalid role, or any
exception from the provider, yields the empty list. -/
def list_users_by_role (listing : Except String (List ProviderUser)) (role : String) :
    List UserSummary :=
  if !(VALID_ROLES.contains role) then []
  else
    match listing with
    | .error _ => []
    | .ok users =>
        (users.filter (fun u => u.custom_role == some role)).map
          (fun u =>
            { uid := u.uid, email := u.email, display_name := u.display_name,
              role := role, email_verified := u.email_verified,
              created_at := u.creation_timestamp })

/-- Success payload of `generate_admin_token` (lines 63-67). -/
structure GenPayload where
  token : String
  expires_at : Nat
  registration_url : String
deriving DecidableEq, Repr

/-- `generate_admin_token` (lines 20-71).  `admins` is the result of
`FirebaseService.list_users_by_role('admin')`; `hash` is the SHA-256 hex
digest (only its determinism matters here, so it is a parameter);
`fresh_token` is the freshly generated `uuid.uuid4()` string; `secret_key` is
the resolved request secret (body field or header, `none` when absent). -/
def generate_admin_token (admins : List UserSummary) (is_dev_mode allow_multiple : Bool)
    (secret_key : Option String) (expected_secret : String)
    (hash : String → String) (fresh_token : String) (now : Nat)
    (store : TokenStore) : RouteResult GenPayload × TokenStore :=
  if !admins.isEmpty && !(is_dev_mode && allow_multiple) then
    (.err "Admin user already exists. Registration is disabled." 403, store)
  else if !(secret_key == some expected_secret) then
    (.err "Invalid secret key" 401, store)
  else
    let token_hash := hash fresh_token
    let expiration := now + 24 * 60 * 60
    let store1 := insertToken store token_hash
      { created_at := now, expires_at := expiration, used := false }
    let store2 := sweepStore now store1
    (.ok { token := fresh_token, expires_at := expiration,
           registration_url := "/admin-setup/register?token=" ++ fresh_token }
         "Admin registration token generated successfully", store2)

/-- Success payload of `validate_admin_token` (lines 103-106). -/
structure ValidatePayload where
  valid : Bool
  expires_at : Nat
deriving DecidableEq, Repr

/-- `validate_admin_token` (lines 73-110): missing-token check, admin-exists
guard, then the `peek` classification of lines 94-101. -/
def validate_admin_token (admins : List UserSummary) (is_dev_mode : Bool)
    (hash : String → String) (token : Option String)
    (store : TokenStore) (now : Nat) : RouteResult ValidatePayload :=
  if !(truthy token) then .err "Token is required" 400
  else if !admins.isEmpty && !is_dev_mode then
    .err "Admin user already exists. Registration is disabled." 403
  else
    match peek store (hash (token.getD "")) now with
    | .NotFound => .err "Invalid token" 400
    | .AlreadyUsed => .err "Token has already been used" 400
    | .Expired => .err "Token has expired" 400
    | .Valid e => .ok { valid := true, expires_at := e } "Token is valid"

/-- Success payload of `register_admin_with_token` (lines 164-169). -/
structure RegisterPayload where
  uid : String
  email : String
  role : String
  display_name : String
deriving DecidableEq, Repr

/-- `register_admin_with_token` (lines 112-173): required-field check,
admin-exists guard, then the consume path (`consume` above).  `provision` is
the outcome of `FirebaseService.create_user_with_role`; `display_name` is
already defaulted (`data.get('display_name', 'System Administrator')`). -/
def register_admin_with_token (admins : List UserSummary) (is_dev_mode : Bool)
    (hash : String → String) (token email password : Option String)
    (display_name : String) (store : TokenStore) (now : Nat)
    (provision : Option String) : RouteResult RegisterPayload × TokenStore :=
  if !(truthy token && truthy email && truthy password) then
    (.err "Token, email, and password are required" 400, store)
  else if !admins.isEmpty && !is_dev_mode then
    (.err "Admin user already exists. Registration is disabled." 403, store)
  else
    match consume store (hash (token.getD "")) now provision with
    | (.NotFound, s) => (.err "Invalid token" 400, s)
    | (.AlreadyUsed, s) => (.err "Token has already been used" 400, s)
    | (.Expired, s) => (.err "Token has expired" 400, s)
    | (.ProvisionFailed, s) => (.err "Failed to create admin user" 500, s)
    | (.Provisioned uid, s) =>
        (.ok { uid := uid, email := email.getD "", role := "admin",
               display_name := display_name }
           "Admin user created successfully", s)

/-- Success payload of `reset_development_admin` (lines 235-238). -/
structure ResetPayload where
  reset : Bool
  message : String
deriving DecidableEq, Repr

/-- `reset_development_admin` (lines 212-242): dev-mode gate first, then the
secret check, then `_admin_tokens.clear()`. -/
def reset_development_admin (is_dev_mode : Bool) (secret_key : Option String)
    (expected_secret : String) (store : TokenStore) :
    RouteResult ResetPayload × TokenStore :=
  if !is_dev_mode then
    (.err "This endpoint is only available in development mode" 403, store)
  else if !(secret_key == some expected_secret) then
    (.err "Invalid secret key" 401, store)
  else
    (.ok { reset := true, message := "Development admin setup has been reset" }
       "Admin setup reset successfully", [])

/-! Authentication middleware (`app/middleware/auth.py`). -/

/-- Verified token claims: the decoded Firebase token, of which the middleware
reads `role` (`user.get('role')`). -/
structure Claims where
  uid : String
  role : Option String
deriving DecidableEq, Repr

/-- Python `str.split(sep)` for a single-character separator, on the
character list of the string. -/
def splitChar (c : Char) : List Char → List (List Char)
  | [] => [[]]
  | x :: xs =>
      match splitChar c xs with
      | [] => [[]]
      | h :: t => if x = c then [] :: h :: t else (x :: h) :: t

/-- Token extraction of `require_auth` line 18:
`auth_header.split(' ')[1] if auth_header.startswith('Bearer ') else
auth_header`; `none` models the `IndexError` branch (line 29). -/
def extractToken (auth_header : String) : Option String :=
  if ("Bearer ".data).isPrefixOf auth_header.data then
    ((splitChar ' ' auth_header.data).get? 1).map (fun l => String.mk l)
  else some auth_header

/-- Result of the `require_auth` middleware: attached claims, or an
`error_response(msg, status)`. -/
inductive AuthResult where
  | success (claims : Claims)
  | err (msg : String) (status : Nat)
deriving DecidableEq, Repr

/-- `require_auth` (lines 7-36).  `verify` embeds
`FirebaseService.verify_token` (`.ok claims` when the provider accepts,
`.error reason` when it rejects).  The second component is the list of token
strings actually passed to the verifier, so that "no identity-provider call
is made" is an expressible property. -/
def require_auth (verify : String → Except String Claims)
    (auth_header : Option String) : AuthResult × List String :=
  match auth_header with
  | none => (.err "No authorization header provided" 401, [])
  | some h =>
      if h == "" then (.err "No authorization header provided" 401, [])
      else
        match extractToken h with
        | none => (.err "Invalid authorization header format" 401, [])
        | some t =>
            match verify t with
            | .error e => (.err ("Invalid token: " ++ e) 401, [t])
            | .ok c => (.success c, [t])

/-- Result of the `require_role` middleware. -/
inductive RoleResult where
  | success (claims : Claims) (role : String)
  | err (msg : String) (status : Nat)
deriving DecidableEq, Repr

/-- `require_role` (lines 38-64): authenticate, then read `role` from the
claims; a missing (or Python-falsy) role is rejected with 403, a role outside
`allowed_roles` with 403.  A bare-string argument is normalized upstream to a
one-element list (lines 40-41), so `allowed_roles` is a list. -/
def require_role (allowed_roles : List String)
    (verify : String → Except String Claims) (auth_header : Option String) :
    RoleResult × List String :=
  match require_auth verify auth_header with
  | (.err m s, log) => (.err m s, log)
  | (.success c, log) =>
      match c.role with
      | none => (.err "User role not found. Please contact administrator." 403, log)
      | some r =>
          if r == "" then
            (.err "User role not found. Please contact administrator." 403, log)
          else if allowed_roles.contains r then (.success c r, log)
          else
            (.err ("Access denied. Required role: "
                ++ String.intercalate ", " allowed_roles
                ++ ". Your role: " ++ r) 403, log)

/-- `require_admin` (lines 66-68): `require_role('admin')`. -/
def require_admin (verify : String → Except String Claims)
    (auth_header : Option String) : RoleResult × List String :=
  require_role ["admin"] verify auth_header

/-! The store-level operations that mutate `_admin_tokens`, as a step type:
issuing (store plus cleanup, lines 52-59), consuming (lines 134-160),
sweeping (lines 244-256), clearing (line 231). -/

/-- One mutation of the shared token store. -/
inductive StoreOp where
  | issueOp (digest : String) (now : Nat)
  | consumeOp (digest : String) (now : Nat) (provision : Option String)
  | sweepOp (now : Nat)
  | clearOp
deriving DecidableEq, Repr

/-- Effect of each operation on the store. -/
def applyOp : StoreOp → TokenStore → TokenStore
  | .issueOp d now, s =>
      sweepStore now
        (insertToken s d { created_at := now, expires_at := now + 24 * 60 * 60, used := false })
  | .consumeOp d now p, s => (consume s d now p).2
  | .sweepOp now, s => sweepStore now s
  | .clearOp, _ => []

/-! Store lemmas. -/

theorem lookupToken_cons (k : String) (v : TokenRecord) (t : TokenStore) (h : String) :
    lookupToken ((k, v) :: t) h = if k == h then some v else lookupToken t h := by
  simp only [lookupToken, List.find?]
  cases hk : (k == h) <;> simp [hk]

theorem lookupToken_eq_none_of_not_mem (s : TokenStore) (h : String)
    (hmem : h ∉ s.map Prod.fst) : lookupToken s h = none := by
  induction s with
  | nil => rfl
  | cons a t ih =>
      obtain ⟨k, v⟩ := a
      simp only [List.map_cons, List.mem_cons, not_or] at hmem
      rw [lookupToken_cons, if_neg (by simpa using Ne.symm hmem.1), ih hmem.2]

theorem not_mem_keys_filter (s : TokenStore) (p : String × TokenRecord → Bool)
    (h : String) (hmem : h ∉ s.map Prod.fst) : h ∉ (s.filter p).map Prod.fst := by
  intro hc
  apply hmem
  obtain ⟨a, ha, hfst⟩ := List.mem_map.mp hc
  exact List.mem_map.mpr ⟨a, (List.mem_filter.mp ha).1, hfst⟩

theorem lookupToken_filter (s : TokenStore) (p : String × TokenRecord → Bool)
    (h : String) (r : TokenRecord) (hnd : keysNodup s)
    (hfind : lookupToken s h = some r) :
    lookupToken (s.filter p) h = if p (h, r) then some r else none := by
  induction s with
  | nil => simp [lookupToken] at hfind
  | cons a t ih =>
      obtain ⟨k, v⟩ := a
      unfold keysNodup at hnd
      rw [List.map_cons, List.nodup_cons] at hnd
      rw [lookupToken_cons] at hfind
      by_cases hkh : (k == h) = true
      · have hk : k = h := by simpa using hkh
        rw [if_pos hkh] at hfind
        have hv : v = r := by injection hfind
        cases hp : p (k, v) with
        | true =>
            rw [List.filter_cons_of_pos hp, lookupToken_cons, if_pos hkh, hv,
                if_pos (show p (h, r) = true by rw [← hk, ← hv]; exact hp)]
        | false =>
            rw [List.filter_cons_of_neg (by simp [hp]),
                if_neg (show ¬p (h, r) = true by rw [← hk, ← hv]; simp [hp])]
            exact lookupToken_eq_none_of_not_mem _ _
              (not_mem_keys_filter _ _ _ (hk ▸ hnd.1))
      · rw [if_neg hkh] at hfind
        have ht := ih hnd.2 hfind
        cases hp : p (k, v) with
        | true => rw [List.filter_cons_of_pos hp, lookupToken_cons, if_neg hkh, ht]
        | false => rw [List.filter_cons_of_neg (by simp [hp]), ht]

theorem lookupToken_sweep_of_found (s : TokenStore) (now : Nat) (h : String)
    (r : TokenRecord) (hnd : keysNodup s) (hfind : lookupToken s h = some r) :
    lookupToken (sweepStore now s) h = none ∨
      lookupToken (sweepStore now s) h = some r := by
  rw [sweepStore, lookupToken_filter _ _ _ _ hnd hfind]
  split
  · exact Or.inr rfl
  · exact Or.inl rfl

theorem lookupToken_insert_self (s : TokenStore) (h : String) (r : TokenRecord) :
    lookupToken (insertToken s h r) h = some r := by
  rw [insertToken, lookupToken_cons, if_pos (by simp)]

theorem lookupToken_filter_of_keeps (s : TokenStore) (p : String × TokenRecord → Bool)
    (h : String) (hp : ∀ v, p (h, v) = true) :
    lookupToken (s.filter p) h = lookupToken s h := by
  induction s with
  | nil => rfl
  | cons a t ih =>
      obtain ⟨k, v⟩ := a
      by_cases hkh : (k == h) = true
      · have hk : k = h := by simpa using hkh
        subst hk
        rw [List.filter_cons_of_pos (hp v), lookupToken_cons, lookupToken_cons,
            if_pos hkh, if_pos hkh]
      · cases hpkv : p (k, v) with
        | true =>
            rw [List.filter_cons_of_pos hpkv, lookupToken_cons, lookupToken_cons,
                if_neg hkh, if_neg hkh, ih]
        | false =>
            rw [List.filter_cons_of_neg (by simp [hpkv]), lookupToken_cons,
                if_neg hkh, ih]

theorem lookupToken_insert_ne (s : TokenStore) (h h' : String) (r : TokenRecord)
    (hne : h ≠ h') : lookupToken (insertToken s h' r) h = lookupToken s h := by
  rw [insertToken, lookupToken_cons, if_neg (by simp [Ne.symm hne])]
  exact lookupToken_filter_of_keeps _ _ _ (fun v => by simp [hne])

theorem lookupToken_update_ne (s : TokenStore) (h h' : String) (r : TokenRecord)
    (hne : h ≠ h') : lookupToken (updateToken s h' r) h = lookupToken s h := by
  induction s with
  | nil => rfl
  | cons a t ih =>
      obtain ⟨k, v⟩ := a
      simp only [updateToken, List.map_cons] at ih ⊢
      by_cases hkh' : (k == h') = true
      · have hk : k = h' := by simpa using hkh'
        subst hk
        rw [if_pos hkh', lookupToken_cons, lookupToken_cons,
            if_neg (by simp [Ne.symm hne]), if_neg (by simp [Ne.symm hne]), ih]
      · rw [if_neg hkh', lookupToken_cons, lookupToken_cons]
        by_cases hkh : (k == h) = true
        · rw [if_pos hkh, if_pos hkh]
        · rw [if_neg hkh, if_neg hkh, ih]

theorem keysNodup_insert (s : TokenStore) (h : String) (r : TokenRecord)
    (hnd : keysNodup s) : keysNodup (insertToken s h r) := by
  unfold keysNodup insertToken
  rw [List.map_cons, List.nodup_cons]
  refine ⟨?_, ?_⟩
  · intro hc
    obtain ⟨a, ha, hfst⟩ := List.mem_map.mp hc
    have hkeep := (List.mem_filter.mp ha).2
    rw [hfst] at hkeep
    simp at hkeep
  · exact List.Nodup.sublist ((List.filter_sublist _).map _) hnd

theorem consume_store_cases (s : TokenStore) (h : String) (now : Nat)
    (p : Option String) :
    (consume s h now p).2 = s ∨
    ∃ d uid, lookupToken s h = some d ∧ d.used = false ∧
      (consume s h now p).2 =
        updateToken s h
          { d with used := true, used_at := some now, admin_uid := some uid } := by
  unfold consume
  cases hl : lookupToken s h with
  | none => exact Or.inl rfl
  | some d =>
      by_cases hu : d.used = true
      · exact Or.inl (by simp [hu])
      · by_cases he : d.expires_at < now
        · exact Or.inl (by simp [hu, he])
        · cases p with
          | none => exact Or.inl (by simp [hu, he])
          | some uid =>
              exact Or.inr ⟨d, uid, rfl, by simpa using hu, by simp [hu, he]⟩

theorem lookupToken_sweep_insert_self (store : TokenStore) (h : String)
    (r : TokenRecord) (now : Nat) (hkeep : ¬r.expires_at < now) :
    lookupToken (sweepStore now (insertToken store h r)) h = some r := by
  rw [insertToken, sweepStore, List.filter_cons_of_pos (by simp [hkeep]),
      lookupToken_cons, if_pos (by simp)]

/-! Claim theorems. -/

/-- C1, counterexample.  The claim says the consume path marks the token used
before provisioning, so that after a provisioning failure the token is
consumed and a later peek returns AlreadyUsed.  On the code this is false at
a concrete input: one unused, unexpired record under digest `"k"`, consumed at
time 10 with a failing provisioning call, yields `ProvisionFailed` with the
store unchanged, the record still has `used = false`, and a later peek of the
same digest returns `Valid`, not `AlreadyUsed`. -/
theorem consume_provision_failure_counterexample :
    consume [("k", ⟨0, 100, false, none, none⟩)] "k" 10 none =
      (.ProvisionFailed, [("k", ⟨0, 100, false, none, none⟩)]) ∧
    (lookupToken (consume [("k", ⟨0, 100, false, none, none⟩)] "k" 10 none).2 "k").map
      TokenRecord.used = some false ∧
    peek (consume [("k", ⟨0, 100, false, none, none⟩)] "k" 10 none).2 "k" 10 =
      .Valid 100 ∧
    peek (consume [("k", ⟨0, 100, false, none, none⟩)] "k" 10 none).2 "k" 10 ≠
      .AlreadyUsed := by
  refine ⟨by decide, by decide, by decide, by decide⟩

/-- C1, amended.  In `register_admin_with_token` the provisioning call runs
before the token is marked used (lines 147-160): when provisioning fails the
store is left unchanged, and the consume path fails with `ProvisionFailed`
exactly when the token was valid — so the token is NOT consumed and the same
secret remains usable for a retry (the opposite of burn-on-attempt). -/
theorem consume_provision_failure_leaves_token_unconsumed
    (s : TokenStore) (h : String) (now : Nat) :
    (consume s h now none).2 = s ∧
    ((consume s h now none).1 = .ProvisionFailed ↔ ∃ e, peek s h now = .Valid e) := by
  unfold consume peek classifyToken
  cases hl : lookupToken s h with
  | none => simp
  | some d =>
      by_cases hu : d.used = true
      · simp [hu]
      · by_cases he : d.expires_at < now
        · simp [hu, he]
        · simp [hu, he]

/-- C4: both the peek classification and the consume path check `used` before
`expires_at` (lines 94-101 and 137-144), so a record that is used and whose
expiry has also passed is reported `AlreadyUsed`, never `Expired`, and the
consume path leaves the store unchanged on it. -/
theorem used_and_expired_reports_already_used (s : TokenStore) (h : String)
    (r : TokenRecord) (now : Nat) (hfind : lookupToken s h = some r)
    (hused : r.used = true) (hexp : r.expires_at < now) :
    peek s h now = .AlreadyUsed ∧
    peek s h now ≠ .Expired ∧
    ∀ p, consume s h now p = (.AlreadyUsed, s) := by
  refine ⟨?_, ?_, ?_⟩
  · simp [peek, classifyToken, hfind, hused]
  · simp [peek, classifyToken, hfind, hused]
  · intro p
    simp [consume, hfind, hused]

/-- C4 witness: a concrete record that is both used (`used = true`) and
expired (`expires_at = 5 < 9 = now`) is classified `AlreadyUsed` by both peek
and consume. -/
theorem used_and_expired_reports_already_used_witness :
    lookupToken [("a", ⟨0, 5, true, some 1, some "u"⟩)] "a" =
      some ⟨0, 5, true, some 1, some "u"⟩ ∧
    (5 : Nat) < 9 ∧
    peek [("a", ⟨0, 5, true, some 1, some "u"⟩)] "a" 9 = .AlreadyUsed ∧
    consume [("a", ⟨0, 5, true, some 1, some "u"⟩)] "a" 9 (some "x") =
      (.AlreadyUsed, [("a", ⟨0, 5, true, some 1, some "u"⟩)]) := by
  refine ⟨by decide, by decide, ?_, ?_⟩
  · exact (used_and_expired_reports_already_used
      [("a", ⟨0, 5, true, some 1, some "u"⟩)] "a" ⟨0, 5, true, some 1, some "u"⟩ 9
      (by decide) (by decide) (by decide)).1
  · exact (used_and_expired_reports_already_used
      [("a", ⟨0, 5, true, some 1, some "u"⟩)] "a" ⟨0, 5, true, some 1, some "u"⟩ 9
      (by decide) (by decide) (by decide)).2.2 (some "x")

/-- C5: when an admin already exists and the dev-mode/allow-multiple override
is off, `generate_admin_token` answers 403 admin-exists for every supplied
secret (matching or not) and leaves the store unchanged — the existence check
(lines 34-37) is decided before the secret comparison (lines 40-44). -/
theorem generate_token_admin_exists_forbidden (admins : List UserSummary)
    (is_dev_mode allow_multiple : Bool) (secret_key : Option String)
    (expected_secret : String) (hash : String → String) (fresh : String)
    (now : Nat) (store : TokenStore)
    (hadm : admins ≠ []) (hov : (is_dev_mode && allow_multiple) = false) :
    generate_admin_token admins is_dev_mode allow_multiple secret_key
      expected_secret hash fresh now store =
      (.err "Admin user already exists. Registration is disabled." 403, store) := by
  unfold generate_admin_token
  rw [if_pos]
  simp [List.isEmpty_iff, hadm, hov]

/-- C5 witness: one admin on file, dev mode off, and the secret supplied is
exactly the configured one — the result is still the 403 admin-exists error
with the store untouched. -/
theorem generate_token_admin_exists_forbidden_witness :
    ([⟨"u1", none, none, "admin", true, 0⟩] : List UserSummary) ≠ [] ∧
    (false && false) = false ∧
    generate_admin_token [⟨"u1", none, none, "admin", true, 0⟩] false false
      (some "s3cret") "s3cret" (fun x => x) "fresh" 50 [] =
      (.err "Admin user already exists. Registration is disabled." 403, []) := by
  refine ⟨by decide, by decide, ?_⟩
  exact generate_token_admin_exists_forbidden _ false false (some "s3cret") "s3cret"
    (fun x => x) "fresh" 50 [] (by decide) (by decide)

/-- C8: `_cleanup_expired_tokens` removes exactly the records whose
`expires_at` is strictly below `now`: membership in the swept store is
membership in the original store plus non-expiry, the swept store is a
sublist of the original (kept records are untouched, in order), and sweeping
twice at the same time is the same as sweeping once. -/
theorem sweep_exact_and_idempotent (s : TokenStore) (now : Nat) :
    (∀ e : String × TokenRecord,
      e ∈ sweepStore now s ↔ e ∈ s ∧ ¬e.2.expires_at < now) ∧
    (sweepStore now s).Sublist s ∧
    sweepStore now (sweepStore now s) = sweepStore now s := by
  refine ⟨?_, ?_, ?_⟩
  · intro e
    simp [sweepStore, List.mem_filter]
  · exact List.filter_sublist s
  · simp [sweepStore, List.filter_filter]

/-- C9: `reset_development_admin` outside development mode answers the 403
dev-only error and returns the token store exactly as it was, for every prior
store and every supplied secret. -/
theorem reset_dev_outside_dev_mode_untouched (secret_key : Option String)
    (expected_secret : String) (store : TokenStore) :
    reset_development_admin false secret_key expected_secret store =
      (.err "This endpoint is only available in development mode" 403, store) := by
  rfl

/-- C2: once a record's `used` flag is true, every peek and every consume of
the same digest answers `AlreadyUsed` (consume additionally leaves the store
unchanged, so no second provisioning can happen), and every store operation
other than removal — issuing a fresh digest, consuming any digest, sweeping —
either removes the record or keeps it with `used` still true; only sweep and
clear can remove it, and nothing resets `used` to false.  `keysNodup` is the
Python-dict guarantee of distinct keys. -/
theorem used_token_stays_used (s : TokenStore) (d : String) (r : TokenRecord)
    (hnd : keysNodup s) (hfind : lookupToken s d = some r) (hused : r.used = true) :
    (∀ now, peek s d now = .AlreadyUsed) ∧
    (∀ now p, consume s d now p = (.AlreadyUsed, s)) ∧
    (∀ op : StoreOp, (∀ d' n, op = .issueOp d' n → d' ≠ d) →
      lookupToken (applyOp op s) d = none ∨
      ∃ r', lookupToken (applyOp op s) d = some r' ∧ r'.used = true) := by
  refine ⟨?_, ?_, ?_⟩
  · intro now
    simp [peek, classifyToken, hfind, hused]
  · intro now p
    simp [consume, hfind, hused]
  · intro op hop
    cases op with
    | issueOp d' n =>
        simp only [applyOp]
        have hne : d' ≠ d := hop d' n rfl
        have h1 : lookupToken (insertToken s d'
            { created_at := n, expires_at := n + 24 * 60 * 60, used := false }) d
            = some r := by
          rw [lookupToken_insert_ne _ _ _ _ (Ne.symm hne)]
          exact hfind
        have h2 := keysNodup_insert s d'
          { created_at := n, expires_at := n + 24 * 60 * 60, used := false } hnd
        rcases lookupToken_sweep_of_found _ n d r h2 h1 with hc | hc
        · exact Or.inl hc
        · exact Or.inr ⟨r, hc, hused⟩
    | consumeOp d' n p =>
        simp only [applyOp]
        rcases consume_store_cases s d' n p with hc | ⟨d0, uid, hl0, hu0, hc⟩
        · rw [hc]
          exact Or.inr ⟨r, hfind, hused⟩
        · by_cases hdd : d' = d
          · subst hdd
            rw [hfind] at hl0
            injection hl0 with h0
            rw [← h0, hused] at hu0
            exact absurd hu0 (by simp)
          · rw [hc, lookupToken_update_ne _ _ _ _ (Ne.symm hdd)]
            exact Or.inr ⟨r, hfind, hused⟩
    | sweepOp n =>
        simp only [applyOp]
        rcases lookupToken_sweep_of_found s n d r hnd hfind with hc | hc
        · exact Or.inl hc
        · exact Or.inr ⟨r, hc, hused⟩
    | clearOp =>
        exact Or.inl rfl

/-- C2 witness: a store holding one consumed record under digest "a"; peek
and a fresh consume answer `AlreadyUsed`, and a sweep that keeps the record
keeps it used. -/
theorem used_token_stays_used_witness :
    keysNodup [("a", ⟨0, 5, true, some 1, some "u"⟩)] ∧
    lookupToken [("a", ⟨0, 5, true, some 1, some "u"⟩)] "a" =
      some ⟨0, 5, true, some 1, some "u"⟩ ∧
    (⟨0, 5, true, some 1, some "u"⟩ : TokenRecord).used = true ∧
    peek [("a", ⟨0, 5, true, some 1, some "u"⟩)] "a" 3 = .AlreadyUsed ∧
    consume [("a", ⟨0, 5, true, some 1, some "u"⟩)] "a" 3 (some "x") =
      (.AlreadyUsed, [("a", ⟨0, 5, true, some 1, some "u"⟩)]) ∧
    (lookupToken (applyOp (.sweepOp 2) [("a", ⟨0, 5, true, some 1, some "u"⟩)]) "a"
        = none ∨
      ∃ r', lookupToken (applyOp (.sweepOp 2)
          [("a", ⟨0, 5, true, some 1, some "u"⟩)]) "a" = some r' ∧
        r'.used = true) := by
  refine ⟨by decide, by decide, by decide, ?_, ?_, ?_⟩
  · exact (used_token_stays_used [("a", ⟨0, 5, true, some 1, some "u"⟩)] "a"
      ⟨0, 5, true, some 1, some "u"⟩ (by decide) (by decide) (by decide)).1 3
  · exact (used_token_stays_used [("a", ⟨0, 5, true, some 1, some "u"⟩)] "a"
      ⟨0, 5, true, some 1, some "u"⟩ (by decide) (by decide) (by decide)).2.1 3 (some "x")
  · exact (used_token_stays_used [("a", ⟨0, 5, true, some 1, some "u"⟩)] "a"
      ⟨0, 5, true, some 1, some "u"⟩ (by decide) (by decide) (by decide)).2.2
      (.sweepOp 2) (fun d' n h => by cases h)

/-- C3, counterexample.  The claim says the header consisting of the Bearer
marker followed by nothing yields the invalid-header-format error with no
verifier call.  On the code, Python splits that header into two fields whose
second is the empty string, so the verifier IS invoked (call log `[""]`) and
the response is the invalid-token error produced from the verifier's reason,
not the invalid-format error. -/
theorem bearer_blank_header_counterexample :
    require_auth (fun _ => .error "verification failed") (some "Bearer ") =
      (.err "Invalid token: verification failed" 401, [""]) ∧
    (require_auth (fun _ => .error "verification failed") (some "Bearer ")).1 ≠
      .err "Invalid authorization header format" 401 ∧
    (require_auth (fun _ => .error "verification failed") (some "Bearer ")).2 ≠ [] := by
  refine ⟨by decide, by decide, by decide⟩

/-- C3, amended.  For the Bearer-marker-only header, `require_auth` extracts
the empty string as the token and always invokes the verifier on it (the call
log is `[""]`); the outcome is the verifier's: success on `.ok`, the 401
invalid-token error on `.error`.  The invalid-header-format branch is not
taken. -/
theorem bearer_blank_header_calls_verifier (verify : String → Except String Claims) :
    require_auth verify (some "Bearer ") =
      ((match verify "" with
        | .ok c => AuthResult.success c
        | .error e => AuthResult.err ("Invalid token: " ++ e) 401), [""]) := by
  have hx : extractToken "Bearer " = some "" := by decide
  cases hv : verify "" with
  | ok c => simp [require_auth, hx, hv]
  | error e => simp [require_auth, hx, hv]

/-- C6: the role gate with allowed set `{admin}` accepts claims whose role is
admin, rejects a doctor role with the 403 access-denied error, and rejects
claims with no role key with the 403 role-not-found error — all three through
a successful authentication, never through the 401 path. -/
theorem authorize_admin_gate (uid : String) :
    require_role ["admin"] (fun _ => .ok { uid := uid, role := some "admin" })
        (some "t") =
      (.success { uid := uid, role := some "admin" } "admin", ["t"]) ∧
    require_role ["admin"] (fun _ => .ok { uid := uid, role := some "doctor" })
        (some "t") =
      (.err "Access denied. Required role: admin. Your role: doctor" 403, ["t"]) ∧
    require_role ["admin"] (fun _ => .ok { uid := uid, role := none }) (some "t") =
      (.err "User role not found. Please contact administrator." 403, ["t"]) := by
  refine ⟨rfl, rfl, rfl⟩

/-- C7: a successful `generate_admin_token` (no admin on file, matching
secret) returns the fresh secret with expiry `now + 86400`, stores under its
digest a record with `created_at = now`, `expires_at = now + 86400` (so
`expires_at = created_at + 86400`) and `used = false`, and while unconsumed
that digest peeks `Valid` with that same expiry at every time up to the
expiry. -/
theorem issue_token_expiry_and_validity (admins : List UserSummary)
    (is_dev_mode allow_multiple : Bool) (expected_secret : String)
    (hash : String → String) (fresh : String) (now : Nat) (store : TokenStore)
    (hadm : admins = []) :
    (generate_admin_token admins is_dev_mode allow_multiple (some expected_secret)
        expected_secret hash fresh now store).1 =
      .ok { token := fresh, expires_at := now + 86400,
            registration_url := "/admin-setup/register?token=" ++ fresh }
        "Admin registration token generated successfully" ∧
    lookupToken (generate_admin_token admins is_dev_mode allow_multiple
        (some expected_secret) expected_secret hash fresh now store).2 (hash fresh) =
      some { created_at := now, expires_at := now + 86400, used := false } ∧
    (∀ r, lookupToken (generate_admin_token admins is_dev_mode allow_multiple
        (some expected_secret) expected_secret hash fresh now store).2 (hash fresh)
        = some r → r.expires_at = r.created_at + 86400) ∧
    (∀ now2, now2 ≤ now + 86400 →
      peek (generate_admin_token admins is_dev_mode allow_multiple
        (some expected_secret) expected_secret hash fresh now store).2
        (hash fresh) now2 = .Valid (now + 86400)) := by
  subst hadm
  have hgen : generate_admin_token [] is_dev_mode allow_multiple
      (some expected_secret) expected_secret hash fresh now store =
      (.ok { token := fresh, expires_at := now + 86400,
             registration_url := "/admin-setup/register?token=" ++ fresh }
         "Admin registration token generated successfully",
       sweepStore now (insertToken store (hash fresh)
         { created_at := now, expires_at := now + 86400, used := false })) := by
    unfold generate_admin_token
    rw [if_neg (by simp), if_neg (by simp)]
  have hlook : lookupToken (sweepStore now (insertToken store (hash fresh)
      { created_at := now, expires_at := now + 86400, used := false }))
      (hash fresh) =
      some { created_at := now, expires_at := now + 86400, used := false } :=
    lookupToken_sweep_insert_self store (hash fresh) _ now (by dsimp only; omega)
  refine ⟨by rw [hgen], ?_, ?_, ?_⟩
  · rw [hgen]
    exact hlook
  · intro r hr
    rw [hgen] at hr
    rw [hlook] at hr
    injection hr with hr
    rw [← hr]
  · intro now2 h2
    rw [hgen]
    simp only [peek, hlook, classifyToken]
    rw [if_neg (by simp), if_neg (by simp; omega)]

/-- C7 witness: no admin, secret "s" matching, fresh secret "f" issued at
time 0 into the empty store with the identity digest: the response carries
expiry 86400 and a peek at time 100 is `Valid 86400`. -/
theorem issue_token_expiry_and_validity_witness :
    ([] : List UserSummary) = [] ∧
    (generate_admin_token [] false false (some "s") "s" (fun x => x) "f" 0 []).1 =
      .ok { token := "f", expires_at := 86400,
            registration_url := "/admin-setup/register?token=" ++ "f" }
        "Admin registration token generated successfully" ∧
    peek (generate_admin_token [] false false (some "s") "s"
        (fun x => x) "f" 0 []).2 "f" 100 = .Valid 86400 := by
  refine ⟨rfl, ?_, ?_⟩
  · exact (issue_token_expiry_and_validity [] false false "s" (fun x => x)
      "f" 0 [] rfl).1
  · exact (issue_token_expiry_and_validity [] false false "s" (fun x => x)
      "f" 0 [] rfl).2.2.2 100 (by omega)

/-- C10: `list_users_by_role` answers the empty list when the provider
listing raises and when the requested role is outside `VALID_ROLES`; with an
empty admin list the admin-exists 403 branch of `generate_admin_token`,
`validate_admin_token` and `register_admin_with_token` can never be taken, so
a provider failure lets each operation proceed as if no admin existed. -/
theorem provider_failure_treated_as_no_admin (e : String) :
    (∀ role, list_users_by_role (.error e) role = []) ∧
    (∀ listing role, VALID_ROLES.contains role = false →
      list_users_by_role listing role = []) ∧
    (∀ (dev mult : Bool) secret expected hash fresh now store msg,
      (generate_admin_token (list_users_by_role (.error e) "admin") dev mult secret
        expected hash fresh now store).1 ≠ .err msg 403) ∧
    (∀ (dev : Bool) hash token store now msg,
      validate_admin_token (list_users_by_role (.error e) "admin") dev hash token
        store now ≠ .err msg 403) ∧
    (∀ (dev : Bool) hash token email password dn store now prov msg,
      (register_admin_with_token (list_users_by_role (.error e) "admin") dev hash
        token email password dn store now prov).1 ≠ .err msg 403) := by
  have h0 : list_users_by_role (.error e) "admin" = [] := rfl
  refine ⟨?_, ?_, ?_, ?_, ?_⟩
  · intro role
    unfold list_users_by_role
    split
    · rfl
    · rfl
  · intro listing role hrole
    unfold list_users_by_role
    rw [if_pos (by rw [hrole]; rfl)]
  · intro dev mult secret expected hash fresh now store msg
    rw [h0]
    unfold generate_admin_token
    rw [if_neg (by simp)]
    split <;> simp
  · intro dev hash token store now msg
    rw [h0]
    unfold validate_admin_token
    split
    · simp
    · rw [if_neg (by simp)]
      split <;> simp
  · intro dev hash token email password dn store now prov msg
    rw [h0]
    unfold register_admin_with_token
    split
    · simp
    · rw [if_neg (by simp)]
      split <;> simp

/-- C10 witness: a raised listing call and an out-of-set role both yield the
empty list, and with the raised listing the generate operation does not take
the admin-exists 403 branch. -/
theorem provider_failure_treated_as_no_admin_witness :
    list_users_by_role (.error "unavailable") "admin" = [] ∧
    VALID_ROLES.contains "superuser" = false ∧
    list_users_by_role (.ok []) "superuser" = [] ∧
    (generate_admin_token (list_users_by_role (.error "unavailable") "admin")
        false false (some "s") "s" (fun x => x) "f" 0 []).1 ≠
      .err "Admin user already exists. Registration is disabled." 403 := by
  refine ⟨?_, by decide, ?_, ?_⟩
  · exact (provider_failure_treated_as_no_admin "unavailable").1 "admin"
  · exact (provider_failure_treated_as_no_admin "unavailable").2.1 (.ok [])
      "superuser" (by decide)
  · exact (provider_failure_treated_as_no_admin "unavailable").2.2.1 false false
      (some "s") "s" (fun x => x) "f" 0 []
      "Admin user already exists. Registration is disabled."

end SynergyCare
